import Mathlib

/-!
Verification model of the ConnectX mesh relay engine
(`src/client/services/meshService.js`).

The engine is the `MeshService` class: it owns identity (`userId`,
`groupId`, `username`), a node registry (`this.nodes`, a JS `Map` from
node id to `{type, info, connectedAt}`), and a message cache
(`this.messages`, a JS `Map` from message id to the message plus an
absolute `expires` instant).  We embed the state as a structure, JS
`Map`s as association lists in insertion order (`Map.set` overwrites in
place or appends; `Map.has` tests key presence), and each operation as a
pure function from state (plus the current clock instant `now`, standing
for `Date.now()`) to state together with the list of listener events
emitted and the list of per-node transport send attempts issued.

JavaScript truthiness is modelled explicitly: guards such as
`if (!this.userId || !this.groupId)`, `if (message.groupId && ...)`,
`if (message.id)`, `if (message.ttl && message.timestamp && ...)` test
truthiness, under which the empty string and the number 0 count as
absent.  An optional string field is `Option String` (`none` = field
missing) and `truthy` is false on both `none` and `some ""`; likewise
`truthyI` for numeric fields.

Transport adapters (`bluetoothService`, `wifiDirectService`) are
external to the engine; their per-send outcomes are an oracle
`SendEnv`, and the outcomes of `startScan` / `isAvailable` /
`startDiscovery` are boolean parameters of `startNetworking`.  The
engine never inspects an individual send result before issuing the
remaining sends (`Promise.allSettled` over promises that were all
created first), which is why the list of attempts produced by the model
does not depend on the oracle.
-/

namespace Mesh

/-- Transport kinds.  `MeshService.handleNodeConnected` is wired (in
`initializeServices`) only with the literal tags `'bluetooth'` and
`'wifiDirect'`, so every entry of `this.nodes` carries one of these two. -/
inductive Transport where
  | bluetooth
  | wifiDirect
deriving DecidableEq, Repr

/-- A wire message (the JSON object of §6 of the design).  Every field can
be missing on a received message, hence `Option`.  `location` and
`content` are opaque payloads, modelled as strings. -/
structure Message where
  id : Option String
  type : Option String
  userId : Option String
  username : Option String
  groupId : Option String
  content : Option String
  location : Option String
  timestamp : Option Int
  ttl : Option Int
deriving DecidableEq, Repr

/-- A cache entry: the JS code stores `{...message, expires}`, i.e. the
message's own fields plus an absolute expiry instant. -/
structure CacheEntry where
  msg : Message
  expires : Int
deriving DecidableEq, Repr

/-- One per-node send attempt (`bluetoothService.sendMessage(nodeId, m)` or
`wifiDirectService.sendMessage(nodeId, m)`).  `ok` is the outcome the
adapter eventually reports; it is collected by `Promise.allSettled` and
never inspected by the engine. -/
structure Send where
  transport : Transport
  nodeId : String
  message : Message
  ok : Bool
deriving DecidableEq, Repr

/-- The attempt itself, with the adapter-reported outcome erased. -/
def Send.attempt (s : Send) : Transport × String × Message :=
  (s.transport, s.nodeId, s.message)

/-- Listener events emitted by the engine (the subset of the Event Bus
surface that the modelled operations can emit). -/
inductive Event where
  | networkingStarted (bluetooth : Bool) (wifiDirect : Bool)
  | networkingError
  | messageSent (m : Message)
  | messageReceived (nodeId : String) (m : Message)
  | locationReceived (nodeId : String) (userId : Option String) (location : Option String)
  | userInfo (nodeId : String) (userId : Option String) (username : Option String)
deriving DecidableEq, Repr

/-- Engine state: the fields of the `MeshService` singleton that the
modelled operations read or write.  `nodes` keeps, per node id, the
transport that reaches it (the stored `info`/`connectedAt` are never read
by the modelled operations).  `messages` is the dedup cache in insertion
order. -/
structure MeshState where
  nodes : List (String × Transport)
  messages : List (String × CacheEntry)
  userId : Option String
  groupId : Option String
  username : Option String
  location : Option String
deriving DecidableEq, Repr

/-- Per-send outcome oracle: what the transport adapter reports for a send
to a given node.  The engine never branches on it. -/
def SendEnv : Type := Transport → String → Bool

/-- `this.messageTimeout`, set to 60000 in the constructor and never
reassigned. -/
def messageTimeout : Int := 60000

/-- JS truthiness of an optional string field: missing (`undefined`/`null`)
and the empty string are falsy. -/
def truthy : Option String → Bool
  | none => false
  | some s => !(s == "")

/-- JS truthiness of an optional numeric field: missing and 0 are falsy. -/
def truthyI : Option Int → Bool
  | none => false
  | some n => !(n == 0)

/-- `Map.has(k)`. -/
def mapHas (l : List (String × CacheEntry)) (k : String) : Bool :=
  l.any (fun p => p.1 == k)

/-- `Map.set(k, v)`: overwrite in place an existing key, otherwise append
(JS `Map` preserves insertion order). -/
def mapSet : List (String × CacheEntry) → String → CacheEntry → List (String × CacheEntry)
  | [], k, v => [(k, v)]
  | p :: l, k, v => if p.1 == k then (k, v) :: l else p :: mapSet l k v

/-- `Map.get(k)` as an observation. -/
def mapGet (l : List (String × CacheEntry)) (k : String) : Option CacheEntry :=
  match l.find? (fun p => p.1 == k) with
  | some p => some p.2
  | none => none

/-- The two `this.nodes.forEach` passes of `broadcastMessage`: first every
Bluetooth node in insertion order, then every WiFi-Direct node. -/
def broadcastSends (env : SendEnv) (nodes : List (String × Transport)) (m : Message) :
    List Send :=
  ((nodes.filter (fun p => p.2 == Transport.bluetooth)).map
    (fun p => ⟨Transport.bluetooth, p.1, m, env Transport.bluetooth p.1⟩))
  ++ ((nodes.filter (fun p => p.2 == Transport.wifiDirect)).map
    (fun p => ⟨Transport.wifiDirect, p.1, m, env Transport.wifiDirect p.1⟩))

/-- `MeshService.broadcastMessage(message)` (lines 186-216): returns without
doing anything if identity is unset; inserts the message into the cache if
it carries a truthy id not already cached (expiry `now + this.messageTimeout`);
then pushes one adapter send per registered node and awaits them with
`Promise.allSettled` (so every attempt is issued regardless of individual
outcomes, and no exception escapes). -/
def broadcastMessage (env : SendEnv) (s : MeshState) (now : Int) (m : Message) :
    MeshState × List Send :=
  if !(truthy s.userId && truthy s.groupId) then (s, [])
  else
    let s1 := if truthy m.id && !(mapHas s.messages (m.id.getD ""))
      then { s with messages := mapSet s.messages (m.id.getD "") ⟨m, now + messageTimeout⟩ }
      else s
    (s1, broadcastSends env s.nodes m)

/-- The `switch (message.type)` of `handleMessageReceived` (lines 292-303):
dispatch keyed by message kind; unknown or missing kinds emit nothing. -/
def dispatchEvents (nodeId : String) (m : Message) : List Event :=
  match m.type with
  | some "message" => [Event.messageReceived nodeId m]
  | some "location" => [Event.locationReceived nodeId m.userId m.location]
  | some "user" => [Event.userInfo nodeId m.userId m.username]
  | _ => []

/-- `MeshService.handleMessageReceived(type, nodeId, message)` (lines
274-310).  In order: drop if identity unset; drop if the message carries a
truthy `groupId` different from the active one; drop if its truthy id is
already cached; cache it (if it has a truthy id) with expiry
`now + this.messageTimeout`; dispatch by kind; relay via
`broadcastMessage` only when `message.ttl` and `message.timestamp` are
truthy and `now - timestamp < ttl`.  Returns the new state, the events
emitted, and the relay send attempts issued. -/
def handleMessageReceived (env : SendEnv) (s : MeshState) (now : Int) (nodeId : String)
    (m : Message) : MeshState × List Event × List Send :=
  if !(truthy s.userId && truthy s.groupId) then (s, [], [])
  else if truthy m.groupId && !(m.groupId == s.groupId) then (s, [], [])
  else if truthy m.id && mapHas s.messages (m.id.getD "") then (s, [], [])
  else
    let s1 := if truthy m.id
      then { s with messages := mapSet s.messages (m.id.getD "") ⟨m, now + messageTimeout⟩ }
      else s
    let evs := dispatchEvents nodeId m
    if truthyI m.ttl && truthyI m.timestamp
        && decide (now - m.timestamp.getD 0 < m.ttl.getD 0) then
      let r := broadcastMessage env s1 now m
      (r.1, evs, r.2)
    else (s1, evs, [])

/-- Errors thrown by direct engine calls. -/
inductive MeshError where
  | notInitialized
deriving DecidableEq, Repr

/-- The fresh identifier of `sendMessage`:
`${this.userId}-${Date.now()}-${random suffix}`; the random suffix is a
parameter. -/
def mkMessageId (userId : String) (now : Int) (rand : String) : String :=
  userId ++ "-" ++ toString now ++ "-" ++ rand

/-- The chat message `sendMessage` constructs (lines 159-168). -/
def chatMessage (s : MeshState) (now : Int) (rand : String) (content : String) : Message :=
  { id := some (mkMessageId (s.userId.getD "") now rand)
  , type := some "message"
  , userId := s.userId
  , username := s.username
  , groupId := s.groupId
  , content := some content
  , location := none
  , timestamp := some now
  , ttl := some messageTimeout }

/-- `MeshService.sendMessage(message)` (lines 154-183): throws
`'Mesh network not initialized'` if identity is unset; otherwise builds a
chat message with a fresh id, the current timestamp and
`ttl = this.messageTimeout`, caches it with expiry
`now + this.messageTimeout`, broadcasts it, emits `messageSent`, and
returns the new id. -/
def sendMessage (env : SendEnv) (s : MeshState) (now : Int) (rand : String) (content : String) :
    Except MeshError (MeshState × List Event × List Send × String) :=
  if !(truthy s.userId && truthy s.groupId) then .error .notInitialized
  else
    let msgData := chatMessage s now rand content
    let msgId := mkMessageId (s.userId.getD "") now rand
    let s1 := { s with messages := mapSet s.messages msgId ⟨msgData, now + messageTimeout⟩ }
    let r := broadcastMessage env s1 now msgData
    .ok (r.1, [Event.messageSent msgData], r.2, msgId)

/-- `MeshService.startNetworking()` (lines 72-90), with the adapter
outcomes as parameters: `btScanOk` is whether `bluetoothService.startScan()`
resolves, `wifiAvailable` is the result of `wifiDirectService.isAvailable()`
(which catches its own errors and returns `false`), and `wifiDiscoveryOk` is
whether `wifiDirectService.startDiscovery()` resolves when invoked.  Any
rejection inside the `try` lands in the single `catch`, which emits
`networkingError` and returns `false`; otherwise `networkingStarted` carries
the per-transport availability map `{bluetooth: true, wifiDirect:
wifiAvailable}`. -/
def startNetworking (btScanOk : Bool) (wifiAvailable : Bool) (wifiDiscoveryOk : Bool) :
    List Event × Bool :=
  if !btScanOk then ([Event.networkingError], false)
  else if wifiAvailable && !wifiDiscoveryOk then ([Event.networkingError], false)
  else ([Event.networkingStarted true wifiAvailable], true)

/-! ### Helper lemmas about the cache and fan-out -/

theorem mapHas_mapSet_self (l : List (String × CacheEntry)) (k : String) (v : CacheEntry) :
    mapHas (mapSet l k v) k = true := by
  induction l with
  | nil => simp [mapSet, mapHas]
  | cons p l ih =>
    simp only [mapSet]
    split
    · simp [mapHas]
    · simp only [mapHas, List.any_cons] at ih ⊢
      simp [ih]

theorem mapGet_mapSet_self (l : List (String × CacheEntry)) (k : String) (v : CacheEntry) :
    mapGet (mapSet l k v) k = some v := by
  induction l with
  | nil => simp [mapSet, mapGet]
  | cons p l ih =>
    simp only [mapSet]
    split
    · simp [mapGet]
    · rename_i h
      have hp : (p.1 == k) = false := by simpa using h
      simp only [mapGet, List.find?] at ih ⊢
      rw [hp]
      exact ih

theorem broadcastSends_length (env : SendEnv) (nodes : List (String × Transport)) (m : Message) :
    (broadcastSends env nodes m).length = nodes.length := by
  induction nodes with
  | nil => rfl
  | cons p l ih =>
    obtain ⟨nid, tr⟩ := p
    cases tr <;>
      simp only [broadcastSends, List.filter_cons, List.length_append, List.length_map,
        List.length_cons, beq_self_eq_true, if_true] at ih ⊢ <;>
      simp at ih ⊢ <;> omega

theorem broadcastSends_mem (env : SendEnv) (nodes : List (String × Transport)) (m : Message)
    (p : String × Transport) (hp : p ∈ nodes) :
    (⟨p.2, p.1, m, env p.2 p.1⟩ : Send) ∈ broadcastSends env nodes m := by
  cases htr : p.2 with
  | bluetooth =>
    apply List.mem_append_left
    apply List.mem_map_of_mem
    rw [List.mem_filter]
    exact ⟨hp, by simp [htr]⟩
  | wifiDirect =>
    apply List.mem_append_right
    apply List.mem_map_of_mem
    rw [List.mem_filter]
    exact ⟨hp, by simp [htr]⟩

theorem broadcastSends_attempts (env env2 : SendEnv) (nodes : List (String × Transport))
    (m : Message) :
    (broadcastSends env nodes m).map Send.attempt
      = (broadcastSends env2 nodes m).map Send.attempt := by
  simp only [broadcastSends, List.map_append, List.map_map]
  congr 1

/-- The accepted-message path of `handleMessageReceived`: identity set, group
check passed, truthy id not yet cached.  The message is cached with expiry
`now + messageTimeout`, dispatched by kind, and relayed exactly when its
`ttl` and `timestamp` are truthy and `now - timestamp < ttl`. -/
theorem handleMessageReceived_accept (env : SendEnv) (s : MeshState) (now : Int)
    (nodeId : String) (m : Message)
    (hu : truthy s.userId = true) (hg : truthy s.groupId = true)
    (hgrp : (truthy m.groupId && !(m.groupId == s.groupId)) = false)
    (hid : truthy m.id = true)
    (hcache : mapHas s.messages (m.id.getD "") = false) :
    handleMessageReceived env s now nodeId m =
      ({ s with messages := mapSet s.messages (m.id.getD "") ⟨m, now + messageTimeout⟩ },
       dispatchEvents nodeId m,
       if truthyI m.ttl && truthyI m.timestamp
           && decide (now - m.timestamp.getD 0 < m.ttl.getD 0)
         then broadcastSends env s.nodes m else []) := by
  simp only [handleMessageReceived, hu, hg, hgrp, hid, hcache, Bool.and_true, Bool.true_and,
    Bool.and_false, Bool.not_true, Bool.false_and, Bool.not_false, if_true, if_false,
    Bool.false_eq_true, ite_false, ite_true]
  split
  · simp only [broadcastMessage, hu, hg, Bool.and_true, Bool.not_true, Bool.false_eq_true,
      ite_false, mapHas_mapSet_self, Bool.and_false, if_true, if_false, ite_true]
  · rfl

theorem dispatchEvents_length_le_one (nodeId : String) (m : Message) :
    (dispatchEvents nodeId m).length ≤ 1 := by
  unfold dispatchEvents
  split <;> simp

theorem truthyI_eq_true {o : Option Int} (h : truthyI o = true) : ∃ n, o = some n ∧ n ≠ 0 := by
  cases o with
  | none => simp [truthyI] at h
  | some n => exact ⟨n, rfl, by simpa [truthyI] using h⟩

/-- Every invocation of `handleMessageReceived` emits either nothing or
exactly the kind-keyed dispatch of the message. -/
theorem handleMessageReceived_events (env : SendEnv) (s : MeshState) (now : Int)
    (nodeId : String) (m : Message) :
    (handleMessageReceived env s now nodeId m).2.1 = []
      ∨ (handleMessageReceived env s now nodeId m).2.1 = dispatchEvents nodeId m := by
  unfold handleMessageReceived
  split
  · left; rfl
  · split
    · left; rfl
    · split
      · left; rfl
      · split <;> split <;> right <;> rfl

/-- Every invocation of `handleMessageReceived` either issues no relay send,
or the relay guard `ttl && timestamp && (now - timestamp < ttl)` held and it
issues exactly the per-node fan-out. -/
theorem handleMessageReceived_sends (env : SendEnv) (s : MeshState) (now : Int)
    (nodeId : String) (m : Message) :
    (handleMessageReceived env s now nodeId m).2.2 = []
      ∨ ((truthyI m.ttl && truthyI m.timestamp
            && decide (now - m.timestamp.getD 0 < m.ttl.getD 0)) = true
          ∧ (handleMessageReceived env s now nodeId m).2.2 = broadcastSends env s.nodes m) := by
  unfold handleMessageReceived
  split
  · left; rfl
  · rename_i hinit
    have hc : (truthy s.userId && truthy s.groupId) = true := by
      revert hinit
      cases truthy s.userId && truthy s.groupId <;> simp
    split
    · left; rfl
    · split
      · left; rfl
      · split
        · split
          · rename_i hrelay
            right
            exact ⟨hrelay, by simp [broadcastMessage, hc]⟩
          · left; rfl
        · split
          · rename_i hrelay
            right
            exact ⟨hrelay, by simp [broadcastMessage, hc]⟩
          · left; rfl

/-! ### Claim theorems -/

/-- Claim C3: a message whose `timestamp + ttl` lies before `now`, or which
is missing its `timestamp` or `ttl` field, is delivered at most once in the
invocation (at most one listener event) and triggers zero relay sends; and a
relay broadcast occurs only when both fields are present and
`now - timestamp < ttl`. -/
theorem ttl_expiry_blocks_relay (env : SendEnv) (s : MeshState) (now : Int) (nodeId : String)
    (m : Message) :
    (handleMessageReceived env s now nodeId m).2.1.length ≤ 1
    ∧ ((m.timestamp = none ∨ m.ttl = none
          ∨ ∃ t tt, m.timestamp = some t ∧ m.ttl = some tt ∧ t + tt < now) →
        (handleMessageReceived env s now nodeId m).2.2 = [])
    ∧ ((handleMessageReceived env s now nodeId m).2.2 ≠ [] →
        ∃ t tt, m.timestamp = some t ∧ m.ttl = some tt ∧ now - t < tt) := by
  have hrel : ∀ _ : (truthyI m.ttl && truthyI m.timestamp
        && decide (now - m.timestamp.getD 0 < m.ttl.getD 0)) = true,
      ∃ t tt, m.timestamp = some t ∧ m.ttl = some tt ∧ now - t < tt := by
    intro h
    rw [Bool.and_assoc] at h
    obtain ⟨httl, hts, hlt⟩ := by simpa [Bool.and_eq_true] using h
    obtain ⟨tt, htt, -⟩ := truthyI_eq_true httl
    obtain ⟨t, ht, -⟩ := truthyI_eq_true hts
    exact ⟨t, tt, ht, htt, by simpa [ht, htt] using hlt⟩
  refine ⟨?_, ?_, ?_⟩
  · rcases handleMessageReceived_events env s now nodeId m with h | h <;> rw [h]
    · simp
    · exact dispatchEvents_length_le_one nodeId m
  · intro hexp
    rcases handleMessageReceived_sends env s now nodeId m with h | ⟨hg, -⟩
    · exact h
    · obtain ⟨t, tt, ht, htt, hlt⟩ := hrel hg
      rcases hexp with h | h | ⟨t2, tt2, ht2, htt2, hlt2⟩
      · rw [h] at ht; cases ht
      · rw [h] at htt; cases htt
      · rw [ht2] at ht; rw [htt2] at htt
        cases ht; cases htt
        omega
  · intro hne
    rcases handleMessageReceived_sends env s now nodeId m with h | ⟨hg, -⟩
    · exact absurd h hne
    · exact hrel hg

/-- Claim C3 witness: a message missing its `ttl` is dispatched at most once
and relayed nowhere. -/
theorem ttl_expiry_blocks_relay_witness :
    (handleMessageReceived (fun _ _ => true)
        ⟨[("n1", Transport.bluetooth)], [], some "u1", some "g1", some "Alice", none⟩ 1000 "n1"
        ⟨some "m1", some "message", some "u2", some "Bob", some "g1", some "hey", none,
          some 900, none⟩).2.2 = [] :=
  (ttl_expiry_blocks_relay (fun _ _ => true)
      ⟨[("n1", Transport.bluetooth)], [], some "u1", some "g1", some "Alice", none⟩ 1000 "n1"
      ⟨some "m1", some "message", some "u2", some "Bob", some "g1", some "hey", none,
        some 900, none⟩).2.1 (Or.inr (Or.inl rfl))

/-- Claim C5: with identity unset, `sendMessage` throws the
not-initialized error (so the cache is untouched), and `broadcastMessage`
does not succeed: it returns with the state unchanged and zero sends. -/
theorem not_initialized_gate (env : SendEnv) (s : MeshState) (now : Int)
    (rand content : String) (m : Message)
    (h : truthy s.userId = false ∨ truthy s.groupId = false) :
    sendMessage env s now rand content = Except.error MeshError.notInitialized
      ∧ broadcastMessage env s now m = (s, []) := by
  have hc : (truthy s.userId && truthy s.groupId) = false := by
    rcases h with h | h <;> simp [h]
  exact ⟨by simp [sendMessage, hc], by simp [broadcastMessage, hc]⟩

/-- Claim C5 witness: on a fresh engine (identity `null`), `sendMessage`
errors and `broadcastMessage` no-ops. -/
theorem not_initialized_gate_witness :
    sendMessage (fun _ _ => true) ⟨[], [], none, none, none, none⟩ 0 "r" "hi"
        = Except.error MeshError.notInitialized
      ∧ broadcastMessage (fun _ _ => true) ⟨[], [], none, none, none, none⟩ 0
          ⟨none, none, none, none, none, none, none, none, none⟩
        = (⟨[], [], none, none, none, none⟩, []) :=
  not_initialized_gate (fun _ _ => true) ⟨[], [], none, none, none, none⟩ 0 "r" "hi"
    ⟨none, none, none, none, none, none, none, none, none⟩ (Or.inl rfl)

/-- Claim C6 counterexample: `bluetoothService.startScan()` succeeds (the
Bluetooth adapter has started), WiFi Direct reports itself available but its
`startDiscovery()` fails — one adapter started successfully, yet the engine
emits `networkingError` and no `networkingStarted`, because the single
`try`/`catch` makes any adapter failure abort the whole call. -/
theorem startNetworking_abort_cex :
    startNetworking true true false = ([Event.networkingError], false) := rfl

/-- Claim C6 (amended): `networkingStarted` (with availability map
`{bluetooth: true, wifiDirect: available}`) is emitted exactly when the
Bluetooth scan succeeds and WiFi Direct is either unavailable (non-fatal,
recorded as `wifiDirect: false`) or starts discovery successfully; any other
outcome emits `networkingError`, even when one adapter started
successfully. -/
theorem startNetworking_events (btScanOk wifiAvailable wifiDiscoveryOk : Bool) :
    startNetworking btScanOk wifiAvailable wifiDiscoveryOk =
      if btScanOk && (!wifiAvailable || wifiDiscoveryOk)
        then ([Event.networkingStarted true wifiAvailable], true)
        else ([Event.networkingError], false) := by
  cases btScanOk <;> cases wifiAvailable <;> cases wifiDiscoveryOk <;> rfl

/-- Claim C9: a received message whose `type` is missing or not one of the
recognized kinds (`message`, `location`, `user`) emits no Event Bus event. -/
theorem missing_type_no_event (env : SendEnv) (s : MeshState) (now : Int) (nodeId : String)
    (m : Message)
    (h : m.type = none
          ∨ m.type ≠ some "message" ∧ m.type ≠ some "location" ∧ m.type ≠ some "user") :
    (handleMessageReceived env s now nodeId m).2.1 = [] := by
  have hd : dispatchEvents nodeId m = [] := by
    have h3 : m.type ≠ some "message" ∧ m.type ≠ some "location" ∧ m.type ≠ some "user" := by
      rcases h with h | h
      · simp [h]
      · exact h
    unfold dispatchEvents
    split
    · rename_i heq; exact absurd heq h3.1
    · rename_i heq; exact absurd heq h3.2.1
    · rename_i heq; exact absurd heq h3.2.2
    · rfl
  rcases handleMessageReceived_events env s now nodeId m with he | he <;> rw [he]
  exact hd

/-- Claim C9 witness: a message with no `type` field yields zero events. -/
theorem missing_type_no_event_witness :
    (handleMessageReceived (fun _ _ => true)
        ⟨[], [], some "u1", some "g1", some "Alice", none⟩ 1000 "n1"
        ⟨some "m1", none, some "u2", some "Bob", some "g1", none, none,
          some 900, some 5000⟩).2.1 = [] :=
  missing_type_no_event (fun _ _ => true)
    ⟨[], [], some "u1", some "g1", some "Alice", none⟩ 1000 "n1"
    ⟨some "m1", none, some "u2", some "Bob", some "g1", none, none, some 900, some 5000⟩
    (Or.inl rfl)

/-- A message whose truthy id is already cached is dropped by
`handleMessageReceived`: state unchanged, no event, no relay send.  (The two
earlier drop branches return the same triple, so no group hypothesis is
needed.) -/
theorem handleMessageReceived_dup (env : SendEnv) (s : MeshState) (now : Int)
    (nodeId : String) (m : Message)
    (hid : truthy m.id = true)
    (hcache : mapHas s.messages (m.id.getD "") = true) :
    handleMessageReceived env s now nodeId m = (s, [], []) := by
  unfold handleMessageReceived
  split
  · rfl
  · split
    · rfl
    · split
      · rfl
      · rename_i h
        exact absurd (by simp [hid, hcache]) h

/-- Claim C8: with identity set, `broadcastMessage` issues exactly one send
attempt per node in the registry, via that node's transport, and the attempt
list is the same for every outcome oracle: the engine creates all per-node
send promises before `Promise.allSettled`, so an individual failure never
prevents the attempts to the remaining nodes. -/
theorem broadcast_fanout (env env2 : SendEnv) (s : MeshState) (now : Int) (m : Message)
    (hu : truthy s.userId = true) (hg : truthy s.groupId = true) :
    (broadcastMessage env s now m).2.length = s.nodes.length
    ∧ (∀ p ∈ s.nodes, (⟨p.2, p.1, m, env p.2 p.1⟩ : Send) ∈ (broadcastMessage env s now m).2)
    ∧ (broadcastMessage env s now m).2.map Send.attempt
        = (broadcastMessage env2 s now m).2.map Send.attempt := by
  have hb : ∀ e : SendEnv, (broadcastMessage e s now m).2 = broadcastSends e s.nodes m := by
    intro e
    simp [broadcastMessage, hu, hg]
  rw [hb env, hb env2]
  exact ⟨broadcastSends_length env s.nodes m,
    fun p hp => broadcastSends_mem env s.nodes m p hp,
    broadcastSends_attempts env env2 s.nodes m⟩

/-- Claim C8 witness: two registered nodes, one per transport, get exactly
two send attempts. -/
theorem broadcast_fanout_witness :
    (broadcastMessage (fun _ _ => true)
        ⟨[("b1", Transport.bluetooth), ("w1", Transport.wifiDirect)], [],
          some "u1", some "g1", some "Alice", none⟩ 1000
        ⟨some "m1", some "message", some "u1", some "Alice", some "g1", some "hey", none,
          some 1000, some 60000⟩).2.length
      = ([("b1", Transport.bluetooth), ("w1", Transport.wifiDirect)]
          : List (String × Transport)).length :=
  (broadcast_fanout (fun _ _ => true) (fun _ _ => false)
      ⟨[("b1", Transport.bluetooth), ("w1", Transport.wifiDirect)], [],
        some "u1", some "g1", some "Alice", none⟩ 1000
      ⟨some "m1", some "message", some "u1", some "Alice", some "g1", some "hey", none,
        some 1000, some 60000⟩ (by decide) (by decide)).1

/-- Claim C7: with identity set, `sendMessage` constructs a chat-kind
message with the fresh id, the current timestamp and ttl exactly 60000 ms,
caches it under the new id with expiry `now + 60000`, issues one broadcast
send attempt per registered node, emits `messageSent`, and returns the new
id. -/
theorem sendMessage_postcondition (env : SendEnv) (s : MeshState) (now : Int)
    (rand content : String)
    (hu : truthy s.userId = true) (hg : truthy s.groupId = true) :
    sendMessage env s now rand content =
      Except.ok
        ({ s with messages := (mapSet s.messages (mkMessageId (s.userId.getD "") now rand)
              ⟨chatMessage s now rand content, now + messageTimeout⟩) },
         [Event.messageSent (chatMessage s now rand content)],
         broadcastSends env s.nodes (chatMessage s now rand content),
         mkMessageId (s.userId.getD "") now rand)
    ∧ (chatMessage s now rand content).type = some "message"
    ∧ (chatMessage s now rand content).timestamp = some now
    ∧ (chatMessage s now rand content).ttl = some 60000
    ∧ (chatMessage s now rand content).id = some (mkMessageId (s.userId.getD "") now rand)
    ∧ mapGet (mapSet s.messages (mkMessageId (s.userId.getD "") now rand)
          ⟨chatMessage s now rand content, now + messageTimeout⟩)
        (mkMessageId (s.userId.getD "") now rand)
        = some ⟨chatMessage s now rand content, now + 60000⟩
    ∧ (broadcastSends env s.nodes (chatMessage s now rand content)).length
        = s.nodes.length := by
  refine ⟨?_, rfl, rfl, rfl, rfl, ?_, broadcastSends_length env s.nodes _⟩
  · simp [sendMessage, broadcastMessage, chatMessage, hu, hg, mapHas_mapSet_self]
  · exact mapGet_mapSet_self s.messages _ _

/-- Claim C7 witness: a concrete send on a two-node mesh. -/
theorem sendMessage_postcondition_witness :
    (sendMessage (fun _ _ => true)
        ⟨[("b1", Transport.bluetooth), ("w1", Transport.wifiDirect)], [],
          some "u1", some "g1", some "Alice", none⟩ 1000 "r9" "hi" =
      Except.ok
        ({ nodes := [("b1", Transport.bluetooth), ("w1", Transport.wifiDirect)]
         , messages := mapSet [] (mkMessageId "u1" 1000 "r9")
              ⟨chatMessage ⟨[("b1", Transport.bluetooth), ("w1", Transport.wifiDirect)], [],
                  some "u1", some "g1", some "Alice", none⟩ 1000 "r9" "hi", 1000 + messageTimeout⟩
         , userId := some "u1", groupId := some "g1", username := some "Alice"
         , location := none },
         [Event.messageSent (chatMessage ⟨[("b1", Transport.bluetooth),
             ("w1", Transport.wifiDirect)], [], some "u1", some "g1", some "Alice", none⟩
             1000 "r9" "hi")],
         broadcastSends (fun _ _ => true)
           [("b1", Transport.bluetooth), ("w1", Transport.wifiDirect)]
           (chatMessage ⟨[("b1", Transport.bluetooth), ("w1", Transport.wifiDirect)], [],
               some "u1", some "g1", some "Alice", none⟩ 1000 "r9" "hi"),
         mkMessageId "u1" 1000 "r9")) :=
  (sendMessage_postcondition (fun _ _ => true)
      ⟨[("b1", Transport.bluetooth), ("w1", Transport.wifiDirect)], [],
        some "u1", some "g1", some "Alice", none⟩ 1000 "r9" "hi"
      (by decide) (by decide)).1

/-- Claim C1 counterexample: a never-seen message id received twice while
identity is set, but carrying another group's id — both invocations drop it
at the group check, so zero events are emitted in total, not exactly one. -/
theorem dedup_idempotence_cex :
    (handleMessageReceived (fun _ _ => true)
        ⟨[], [], some "u1", some "g1", some "Alice", none⟩ 1000 "n1"
        ⟨some "m1", some "message", some "u2", some "Bob", some "g2", some "hey", none,
          some 1000, some 5000⟩).2.1 = []
    ∧ (handleMessageReceived (fun _ _ => true)
        (handleMessageReceived (fun _ _ => true)
          ⟨[], [], some "u1", some "g1", some "Alice", none⟩ 1000 "n1"
          ⟨some "m1", some "message", some "u2", some "Bob", some "g2", some "hey", none,
            some 1000, some 5000⟩).1 1100 "n1"
        ⟨some "m1", some "message", some "u2", some "Bob", some "g2", some "hey", none,
          some 1000, some 5000⟩).2.1 = [] := by
  exact ⟨rfl, rfl⟩

/-- Claim C1 (amended): for a message with a truthy id not previously
cached, received while identity is set, that passes the group check and
whose kind is one of the recognized three, the first invocation emits
exactly one event and the second invocation of the same message emits zero
events and issues zero relay sends. -/
theorem dedup_idempotence (env env2 : SendEnv) (s : MeshState) (now now2 : Int)
    (nid nid2 : String) (m : Message)
    (hu : truthy s.userId = true) (hg : truthy s.groupId = true)
    (hgrp : (truthy m.groupId && !(m.groupId == s.groupId)) = false)
    (hid : truthy m.id = true)
    (hcache : mapHas s.messages (m.id.getD "") = false)
    (htype : m.type = some "message" ∨ m.type = some "location" ∨ m.type = some "user") :
    (handleMessageReceived env s now nid m).2.1.length = 1
    ∧ (handleMessageReceived env2 (handleMessageReceived env s now nid m).1 now2 nid2 m).2.1
        = []
    ∧ (handleMessageReceived env2 (handleMessageReceived env s now nid m).1 now2 nid2 m).2.2
        = [] := by
  have h1 := handleMessageReceived_accept env s now nid m hu hg hgrp hid hcache
  have hdupState :
      mapHas (handleMessageReceived env s now nid m).1.messages (m.id.getD "") = true := by
    rw [h1]
    exact mapHas_mapSet_self s.messages _ _
  have h2 := handleMessageReceived_dup env2 (handleMessageReceived env s now nid m).1
    now2 nid2 m hid hdupState
  refine ⟨?_, ?_, ?_⟩
  · rw [h1]
    rcases htype with h | h | h <;> simp [dispatchEvents, h]
  · rw [h2]
  · rw [h2]

/-- Claim C1 witness: a chat message delivered twice on a quiet mesh — one
event on first receipt, none (and no relay) on the second. -/
theorem dedup_idempotence_witness :
    ((handleMessageReceived (fun _ _ => true)
        ⟨[], [], some "u1", some "g1", some "Alice", none⟩ 1000 "n1"
        ⟨some "m1", some "message", some "u2", some "Bob", some "g1", some "hey", none,
          some 1000, some 5000⟩).2.1.length = 1
      ∧ (handleMessageReceived (fun _ _ => false)
          (handleMessageReceived (fun _ _ => true)
            ⟨[], [], some "u1", some "g1", some "Alice", none⟩ 1000 "n1"
            ⟨some "m1", some "message", some "u2", some "Bob", some "g1", some "hey", none,
              some 1000, some 5000⟩).1 1100 "n2"
          ⟨some "m1", some "message", some "u2", some "Bob", some "g1", some "hey", none,
            some 1000, some 5000⟩).2.1 = []
      ∧ (handleMessageReceived (fun _ _ => false)
          (handleMessageReceived (fun _ _ => true)
            ⟨[], [], some "u1", some "g1", some "Alice", none⟩ 1000 "n1"
            ⟨some "m1", some "message", some "u2", some "Bob", some "g1", some "hey", none,
              some 1000, some 5000⟩).1 1100 "n2"
          ⟨some "m1", some "message", some "u2", some "Bob", some "g1", some "hey", none,
            some 1000, some 5000⟩).2.2 = []) :=
  dedup_idempotence (fun _ _ => true) (fun _ _ => false)
    ⟨[], [], some "u1", some "g1", some "Alice", none⟩ 1000 1100 "n1" "n2"
    ⟨some "m1", some "message", some "u2", some "Bob", some "g1", some "hey", none,
      some 1000, some 5000⟩
    (by decide) (by decide) (by decide) (by decide) (by decide) (Or.inl rfl)

/-- Claim C2 counterexample: a message whose `groupId` field is present but
holds the empty string — the empty string is falsy in JS, so the guard
`message.groupId && message.groupId !== this.groupId` does not fire although
`"" !== "g1"`, and the message is both delivered and cached. -/
theorem group_isolation_cex :
    (handleMessageReceived (fun _ _ => true)
        ⟨[], [], some "u1", some "g1", some "Alice", none⟩ 1000 "n1"
        ⟨some "m1", some "message", some "u2", some "Bob", some "", some "hey", none,
          some 1000, some 5000⟩).2.1
      = [Event.messageReceived "n1"
          ⟨some "m1", some "message", some "u2", some "Bob", some "", some "hey", none,
            some 1000, some 5000⟩]
    ∧ mapHas (handleMessageReceived (fun _ _ => true)
        ⟨[], [], some "u1", some "g1", some "Alice", none⟩ 1000 "n1"
        ⟨some "m1", some "message", some "u2", some "Bob", some "", some "hey", none,
          some 1000, some 5000⟩).1.messages "m1" = true := by
  exact ⟨rfl, rfl⟩

/-- Claim C2 (amended): a message whose `groupId` is present, non-empty and
different from the active group id is dropped silently: no event, no cache
insertion, no relay send, state unchanged. -/
theorem group_isolation (env : SendEnv) (s : MeshState) (now : Int) (nid : String)
    (m : Message) (g mg : String)
    (hg : s.groupId = some g) (hmg : m.groupId = some mg)
    (hne : mg ≠ "") (hdiff : mg ≠ g) :
    handleMessageReceived env s now nid m = (s, [], []) := by
  unfold handleMessageReceived
  split
  · rfl
  · split
    · rfl
    · rename_i h2
      exfalso
      apply h2
      rw [hmg, hg]
      simp [truthy, hne, hdiff]

/-- Claim C2 witness: a message from group `g2` received while `g1` is
active does nothing. -/
theorem group_isolation_witness :
    handleMessageReceived (fun _ _ => true)
        ⟨[("b1", Transport.bluetooth)], [], some "u1", some "g1", some "Alice", none⟩ 1000 "n1"
        ⟨some "m1", some "message", some "u2", some "Bob", some "g2", some "hey", none,
          some 1000, some 5000⟩
      = (⟨[("b1", Transport.bluetooth)], [], some "u1", some "g1", some "Alice", none⟩, [], []) :=
  group_isolation (fun _ _ => true)
    ⟨[("b1", Transport.bluetooth)], [], some "u1", some "g1", some "Alice", none⟩ 1000 "n1"
    ⟨some "m1", some "message", some "u2", some "Bob", some "g2", some "hey", none,
      some 1000, some 5000⟩ "g1" "g2" rfl rfl (by decide) (by decide)

/-- Claim C4 counterexample: an accepted message with `ttl = 5000` received
at `now = 1000` is cached with `expires = 61000` — `now` plus the fixed
`messageTimeout` of 60000 ms — and not `now + ttl = 6000`. -/
theorem cache_expiry_cex :
    mapGet (handleMessageReceived (fun _ _ => true)
        ⟨[], [], some "u1", some "g1", some "Alice", none⟩ 1000 "n1"
        ⟨some "m1", some "message", some "u2", some "Bob", some "g1", some "hey", none,
          some 900, some 5000⟩).1.messages "m1"
      = some ⟨⟨some "m1", some "message", some "u2", some "Bob", some "g1", some "hey", none,
          some 900, some 5000⟩, 61000⟩
    ∧ (61000 : Int) ≠ 1000 + 5000 := by
  exact ⟨rfl, by decide⟩

/-- Claim C4 (amended): the cache entry created by `handleMessageReceived`
for an accepted message has absolute expiry `now + 60000` — the engine's
fixed `messageTimeout` — regardless of the message's own `ttl` value. -/
theorem cache_expiry_fixed (env : SendEnv) (s : MeshState) (now : Int) (nid : String)
    (m : Message)
    (hu : truthy s.userId = true) (hg : truthy s.groupId = true)
    (hgrp : (truthy m.groupId && !(m.groupId == s.groupId)) = false)
    (hid : truthy m.id = true)
    (hcache : mapHas s.messages (m.id.getD "") = false) :
    mapGet (handleMessageReceived env s now nid m).1.messages (m.id.getD "")
      = some ⟨m, now + 60000⟩ := by
  rw [handleMessageReceived_accept env s now nid m hu hg hgrp hid hcache]
  exact mapGet_mapSet_self s.messages _ _

/-- Claim C4 witness: a message with `ttl = 5000` lands in the cache with
expiry `now + 60000`. -/
theorem cache_expiry_fixed_witness :
    mapGet (handleMessageReceived (fun _ _ => true)
        ⟨[], [], some "u1", some "g1", some "Alice", none⟩ 1000 "n1"
        ⟨some "m2", some "location", some "u2", some "Bob", some "g1", none, some "42,7",
          some 900, some 5000⟩).1.messages
        ((⟨some "m2", some "location", some "u2", some "Bob", some "g1", none, some "42,7",
          some 900, some 5000⟩ : Message).id.getD "")
      = some ⟨⟨some "m2", some "location", some "u2", some "Bob", some "g1", none, some "42,7",
          some 900, some 5000⟩, 1000 + 60000⟩ :=
  cache_expiry_fixed (fun _ _ => true)
    ⟨[], [], some "u1", some "g1", some "Alice", none⟩ 1000 "n1"
    ⟨some "m2", some "location", some "u2", some "Bob", some "g1", none, some "42,7",
      some 900, some 5000⟩
    (by decide) (by decide) (by decide) (by decide) (by decide)

/-- Claim C10: a message lacking its `groupId` field entirely bypasses group
scoping: with identity set and a truthy id not yet cached, it is inserted
into the cache, dispatched by its kind, and relayed with one send attempt
per registered node whenever its `ttl` and `timestamp` are truthy and
`now - timestamp < ttl`. -/
theorem missing_groupId_bypass (env : SendEnv) (s : MeshState) (now : Int) (nid : String)
    (m : Message)
    (hu : truthy s.userId = true) (hg : truthy s.groupId = true)
    (hgrp : m.groupId = none)
    (hid : truthy m.id = true)
    (hcache : mapHas s.messages (m.id.getD "") = false) :
    mapHas (handleMessageReceived env s now nid m).1.messages (m.id.getD "") = true
    ∧ (handleMessageReceived env s now nid m).2.1 = dispatchEvents nid m
    ∧ ((truthyI m.ttl && truthyI m.timestamp
          && decide (now - m.timestamp.getD 0 < m.ttl.getD 0)) = true →
        (handleMessageReceived env s now nid m).2.2.length = s.nodes.length) := by
  have hgrp2 : (truthy m.groupId && !(m.groupId == s.groupId)) = false := by
    rw [hgrp]; rfl
  rw [handleMessageReceived_accept env s now nid m hu hg hgrp2 hid hcache]
  refine ⟨mapHas_mapSet_self s.messages _ _, rfl, fun hrel => ?_⟩
  simp [hrel, broadcastSends_length]

/-- Claim C10 witness: a groupId-less chat message on a one-node mesh is
cached, dispatched, and relayed to that node. -/
theorem missing_groupId_bypass_witness :
    (mapHas (handleMessageReceived (fun _ _ => true)
        ⟨[("b1", Transport.bluetooth)], [], some "u1", some "g1", some "Alice", none⟩ 1000 "n1"
        ⟨some "m3", some "message", some "u2", some "Bob", none, some "hey", none,
          some 900, some 5000⟩).1.messages
        ((⟨some "m3", some "message", some "u2", some "Bob", none, some "hey", none,
          some 900, some 5000⟩ : Message).id.getD "") = true
      ∧ (handleMessageReceived (fun _ _ => true)
          ⟨[("b1", Transport.bluetooth)], [], some "u1", some "g1", some "Alice", none⟩ 1000 "n1"
          ⟨some "m3", some "message", some "u2", some "Bob", none, some "hey", none,
            some 900, some 5000⟩).2.1
          = dispatchEvents "n1"
              ⟨some "m3", some "message", some "u2", some "Bob", none, some "hey", none,
                some 900, some 5000⟩
      ∧ ((truthyI (some 5000) && truthyI (some 900)
            && decide ((1000 : Int) - (some 900 : Option Int).getD 0
                < (some 5000 : Option Int).getD 0)) = true →
          (handleMessageReceived (fun _ _ => true)
            ⟨[("b1", Transport.bluetooth)], [], some "u1", some "g1", some "Alice", none⟩
            1000 "n1"
            ⟨some "m3", some "message", some "u2", some "Bob", none, some "hey", none,
              some 900, some 5000⟩).2.2.length
            = ([("b1", Transport.bluetooth)] : List (String × Transport)).length)) :=
  missing_groupId_bypass (fun _ _ => true)
    ⟨[("b1", Transport.bluetooth)], [], some "u1", some "g1", some "Alice", none⟩ 1000 "n1"
    ⟨some "m3", some "message", some "u2", some "Bob", none, some "hey", none,
      some 900, some 5000⟩
    (by decide) (by decide) rfl (by decide) (by decide)

end Mesh
